import Mathlib

/-
Shallow embedding of telegram-bot-log-stream (src/index.js), a Duplex
stream bridging a Telegram chat to a Node.js object stream.

Modelling conventions:
- JS numbers that hold update identifiers, chat identifiers and ports are
  embedded as Int; buffer lengths as Nat.
- The stream's push is modelled by appending an Event.data to an event
  trace and consulting a backpressure oracle (Nat to Bool, indexed by the
  number of pushes so far) for the boolean push returns.
- Emitting an error is appending an Event.error carrying the message
  string from the source and the offending object.
- The closure variable `webhook` is a JS value that is undefined in
  polling mode, the live WebhookPost object while the webhook is active,
  null once closeWebhook ran, or another falsy value when options.webhook
  was present but falsy: WebhookVar mirrors these four cases.
- The closure variable `polling` is undefined before the first fetch, a
  pending or settled promise afterwards, and null after close: PollingVar
  mirrors these four cases.
- External asynchronous calls (getUpdates, sendMessage, setWebhook,
  setTimeout) are modelled as explicit action values returned next to the
  state, since the code only starts them and reacts in callbacks.
-/

namespace TelegramLog

/-- Chat reference inside a Telegram message: the object at
message.chat with its id field. -/
structure Chat where
  id : Int
deriving Repr, DecidableEq

/-- Telegram Message object as the code reads it: message.chat and the
optional message.text (none models an absent or null text field). -/
structure Message where
  chat : Chat
  text : Option String
deriving Repr, DecidableEq

/-- Telegram Update object: update.update_id and the optional
update.message (none models an absent or null message field). -/
structure Update where
  update_id : Int
  message : Option Message
deriving Repr, DecidableEq

/-- Offending object attached to an emitted error: processUpdate attaches
the whole update for a missing message, the message otherwise; ext stands
for an opaque error coming from an external call. -/
inductive ErrPayload
  | upd (u : Update)
  | msg (m : Message)
  | ext
deriving Repr, DecidableEq

/-- Observable stream event: a data event with the pushed string, or an
error event with the Error message string and its attached data. -/
inductive Event
  | data (s : String)
  | error (emsg : String) (payload : ErrPayload)
deriving Repr, DecidableEq

/-- Value of the closure variable `webhook`: undef is JS undefined
(polling mode), active the live WebhookPost object, nullv JS null after
closeWebhook, falsy any other falsy value left by a falsy options.webhook. -/
inductive WebhookVar
  | undef
  | active
  | nullv
  | falsy
deriving Repr, DecidableEq

/-- Value of the closure variable `polling`: notStarted is JS undefined
before the first fetch, pending a not-yet-settled getUpdates promise,
settled that promise after it settled, closed JS null set by close. -/
inductive PollingVar
  | notStarted
  | pending
  | settled
  | closed
deriving Repr, DecidableEq

/-- Mutable state captured by the TelegramLog closure together with the
observable trace: _updatesOffset, the inFlight flag, the number of pushes
performed so far (index into the backpressure oracle), the emitted
events, the webhook and polling variables, and whether push(null) ended
the readable side. -/
structure LogState where
  offset : Int
  inFlight : Bool
  pushedCount : Nat
  events : List Event
  webhook : WebhookVar
  polling : PollingVar
  ended : Bool
deriving Repr, DecidableEq

/-- State of a fresh instance as the constructor leaves it: offset 0, no
fetch in flight, nothing pushed or emitted, polling not started. -/
def initState (w : WebhookVar) : LogState :=
  { offset := 0, inFlight := false, pushedCount := 0, events := [],
    webhook := w, polling := PollingVar.notStarted, ended := false }

/-- Source function emitError: build an Error from the message string,
attach the offending data and emit it as an error event. It has no
return statement, so its JS value is undefined. -/
def emitError (st : LogState) (emsg : String) (payload : ErrPayload) : LogState :=
  { st with events := st.events ++ [Event.error emsg payload] }

/-- Duplex push in object mode: the chunk is queued (a data event) and
push returns the backpressure boolean, modelled by the oracle at the
current push index. -/
def pushData (pushOk : Nat → Bool) (st : LogState) (s : String) : LogState × Bool :=
  ({ st with events := st.events ++ [Event.data s],
             pushedCount := st.pushedCount + 1 },
   pushOk st.pushedCount)

/-- Source function processUpdate: account update_id as the next offset,
then validate (message present, chat id matches, text present), emitting
an error and returning undefined (none) on rejection, else push the text
and return the push boolean (some). -/
def processUpdate (chat_id : Int) (pushOk : Nat → Bool)
    (st : LogState) (u : Update) : LogState × Option Bool :=
  let st1 := if u.update_id ≥ st.offset then { st with offset := u.update_id + 1 } else st
  match u.message with
  | none => (emitError st1 "Inline queries are not supported" (ErrPayload.upd u), none)
  | some message =>
    if message.chat.id ≠ chat_id then
      (emitError st1 "Received message for not-listening chat" (ErrPayload.msg message), none)
    else
      match message.text with
      | none => (emitError st1 "Only text messages are supported" (ErrPayload.msg message), none)
      | some t =>
        let p := pushData pushOk st1 t
        (p.1, some p.2)

/-- Truthiness of the JS value processUpdate returns: undefined (none) is
falsy, a boolean is itself. -/
def optTruthy : Option Bool → Bool
  | none => false
  | some b => b

/-- Source function processUpdate_reduce, the reducer of gotUpdates:
processUpdate is evaluated on every update and its value is combined with
the accumulator by JS &&; only the truthiness of the accumulator is
observed, so it is carried as a Bool. -/
def processUpdate_reduce (chat_id : Int) (pushOk : Nat → Bool)
    (acc : LogState × Bool) (u : Update) : LogState × Bool :=
  let p := processUpdate chat_id pushOk acc.1 u
  (p.1, optTruthy p.2 && acc.2)

/-- Settling of the getUpdates promise held in `polling`: the same JS
value stays in the variable, but a pending promise becomes settled. -/
def settlePolling : PollingVar → PollingVar
  | PollingVar.pending => PollingVar.settled
  | p => p

/-- Source function gotUpdates, the getUpdates fulfillment handler: clear
inFlight, reduce processUpdate_reduce over the batch starting from true,
and when the result is truthy schedule self._read with setTimeout; the
second component is the scheduled delay (some 1000) or none. -/
def gotUpdates (chat_id : Int) (pushOk : Nat → Bool)
    (st : LogState) (data : List Update) : LogState × Option Nat :=
  let st1 := { st with inFlight := false, polling := settlePolling st.polling }
  let r := data.foldl (processUpdate_reduce chat_id pushOk) (st1, true)
  (r.1, if r.2 then some 1000 else none)

/-- Source function onError, the getUpdates rejection handler: clear
inFlight and emit the external error. -/
def onError (st : LogState) (emsg : String) : LogState :=
  { st with inFlight := false, polling := settlePolling st.polling,
            events := st.events ++ [Event.error emsg ErrPayload.ext] }

/-- Arguments of the api.getUpdates call issued by _read. -/
structure GetUpdatesParams where
  offset : Int
  limit : Int
  timeout : Int
deriving Repr, DecidableEq

/-- Source method _read: with limit the free buffer capacity
highWaterMark - length (a JS number, possibly negative), return without
effect when inFlight, when the readable side ended, when limit is zero,
when polling is null or when webhook is not undefined; otherwise set
inFlight and issue one getUpdates call with the current offset, that
limit and timeout 0. -/
def _read (hwm : Nat) (len : Nat) (st : LogState) : LogState × Option GetUpdatesParams :=
  let limit : Int := (hwm : Int) - (len : Int)
  if st.inFlight || st.ended || limit == 0
     || st.polling == PollingVar.closed || st.webhook != WebhookVar.undef then
    (st, none)
  else
    ({ st with inFlight := true, polling := PollingVar.pending },
     some { offset := st.offset, limit := limit, timeout := 0 })

/-- Webhook data handler: parse the delivery into an update (parsing is
the external collaborator, so the input is already an Update) and ignore
it when update_id is below the current offset, else processUpdate. -/
def webhookData (chat_id : Int) (pushOk : Nat → Bool)
    (st : LogState) (u : Update) : LogState :=
  if u.update_id ≥ st.offset then (processUpdate chat_id pushOk st u).1 else st

/-- External call started by close or by the webhook end handler, next to
the synchronous state change: noop when close returns without effect,
unsetWebhook when api.setWebhook is called to unregister, endAfterPolling
when end is attached to the polling promise (alreadySettled tells whether
that promise had already settled, in which case end fires immediately on
the microtask queue rather than after a pending fetch). -/
inductive CloseAction
  | noop
  | unsetWebhook
  | endAfterPolling (alreadySettled : Bool)
deriving Repr, DecidableEq

/-- Whether the close action ever signals end-of-data. -/
def signalsEnd : CloseAction → Bool
  | CloseAction.endAfterPolling _ => true
  | _ => false

/-- Source method close: return when webhook is null; when webhook is
truthy call setWebhook to unregister (webhook itself is only cleared
later, by closeWebhook, when that call settles); otherwise, when polling
is truthy attach end to it and set polling to null, else do nothing. -/
def close (st : LogState) : LogState × CloseAction :=
  match st.webhook with
  | WebhookVar.nullv => (st, CloseAction.noop)
  | WebhookVar.active => (st, CloseAction.unsetWebhook)
  | _ =>
    match st.polling with
    | PollingVar.pending =>
      ({ st with polling := PollingVar.closed }, CloseAction.endAfterPolling false)
    | PollingVar.settled =>
      ({ st with polling := PollingVar.closed }, CloseAction.endAfterPolling true)
    | _ => (st, CloseAction.noop)

/-- Source function closeWebhook, run when the unregistration call of
close settles (on fulfillment and on rejection alike): close the webhook
listener and set the webhook variable to null. -/
def closeWebhook (st : LogState) : LogState :=
  { st with webhook := WebhookVar.nullv }

--
-- Constructor
--

/-- Shape of options.webhook when present: a string (URL or hostname), a
bare number (the port), or an object with optional hostname, port and
certificate fields. -/
inductive WebhookOpt
  | host (s : String)
  | port (p : Int)
  | obj (hostname : Option String) (portField : Option Int) (certificate : Option String)
deriving Repr, DecidableEq

/-- JS truthiness of the webhook option value: the empty string and the
number 0 are falsy, objects are truthy. -/
def WebhookOpt.truthy : WebhookOpt → Bool
  | WebhookOpt.host s => s ≠ ""
  | WebhookOpt.port p => p ≠ 0
  | WebhookOpt.obj _ _ _ => true

/-- Value of the expression webhook.port or-else webhook in the port
check: a number, or the webhook value itself when webhook.port is falsy
and webhook is not a number (the comparison with the allowed ports is
then false). -/
inductive PortVal
  | num (p : Int)
  | nonNum
deriving Repr, DecidableEq

/-- Evaluation of webhook.port or-else webhook: a bare number has no port
field so the number itself results; an object yields its port field when
that is truthy, else the object itself. -/
def effectivePort : WebhookOpt → PortVal
  | WebhookOpt.port p => PortVal.num p
  | WebhookOpt.obj _ po _ =>
    match po with
    | some p => if p ≠ 0 then PortVal.num p else PortVal.nonNum
    | none => PortVal.nonNum
  | WebhookOpt.host _ => PortVal.nonNum

/-- Telegram accepts webhooks on these ports only (the check of the
source, p === 80 or 88 or 443 or 8443). -/
def portAllowed : PortVal → Bool
  | PortVal.num p => p == 80 || p == 88 || p == 443 || p == 8443
  | PortVal.nonNum => false

/-- Synchronous construction failure: accessing token.constructor on a
missing token throws a TypeError; an empty token throws Missing token; a
missing or zero chat_id throws Missing chat_id; a bad port throws a
RangeError carrying the offending port value. -/
inductive ConstructError
  | typeErrorTokenAccess
  | missingToken
  | missingChatId
  | badPort (port : PortVal)
deriving Repr, DecidableEq

/-- Source constructor TelegramLog (direct three-argument form), up to
and including the webhook port validation: every statement before the
WebhookPost creation is free of network activity, so an error result
means the constructor threw before any external side effect. A missing
token (JS undefined or null) already fails at the token.constructor
access; a present webhook option is only validated when it is truthy and
not a string, exactly as the source guards it. -/
def construct (token : Option String) (chat_id : Option Int)
    (webhook : Option WebhookOpt) : Except ConstructError LogState :=
  match token with
  | none => Except.error ConstructError.typeErrorTokenAccess
  | some tok =>
    if tok = "" then Except.error ConstructError.missingToken
    else if chat_id = none ∨ chat_id = some 0 then
      Except.error ConstructError.missingChatId
    else
      match webhook with
      | none => Except.ok (initState WebhookVar.undef)
      | some w =>
        if w.truthy then
          match w with
          | WebhookOpt.host _ => Except.ok (initState WebhookVar.active)
          | _ =>
            if portAllowed (effectivePort w) then
              Except.ok (initState WebhookVar.active)
            else
              Except.error (ConstructError.badPort (effectivePort w))
        else Except.ok (initState WebhookVar.falsy)

--
-- Write side
--

/-- Value written to the object-mode stream, as far as _write inspects
it: null or undefined, a string, or a number. -/
inductive Chunk
  | nullv
  | str (s : String)
  | num (n : Int)
deriving Repr, DecidableEq

/-- JS loose equality chunk == null: true exactly for null and undefined. -/
def chunkEqNull : Chunk → Bool
  | Chunk.nullv => true
  | _ => false

/-- JS loose equality chunk == the empty string: a string compares by
value, a number compares with ToNumber of the empty string, which is 0,
and null does not compare equal to a string. -/
def chunkEqEmptyString : Chunk → Bool
  | Chunk.nullv => false
  | Chunk.str s => s == ""
  | Chunk.num n => n == 0

/-- Outcome of one _write call: immediateDone models calling done() right
away with no API call; sendMessage models one api.sendMessage call whose
settlement later completes the write with the same success or failure. -/
inductive WriteAction
  | immediateDone
  | sendMessage (chat_id : Int) (text : String)
deriving Repr, DecidableEq

/-- Source method _write: acknowledge immediately when chunk == null or
chunk == the empty string, else issue one sendMessage with the configured
chat_id and JSON.stringify of the chunk (the serializer is the external
JSON collaborator, passed as a parameter). -/
def _write (stringify : Chunk → String) (chat_id : Int) (chunk : Chunk) : WriteAction :=
  if chunkEqNull chunk || chunkEqEmptyString chunk then WriteAction.immediateDone
  else WriteAction.sendMessage chat_id (stringify chunk)

/-- Concrete serializer standing in for JSON.stringify on the modelled
chunk shapes, used in concrete instances. -/
def jsonStr : Chunk → String
  | Chunk.nullv => "null"
  | Chunk.str s => "\"" ++ s ++ "\""
  | Chunk.num n => toString n

--
-- Specification-level characterizations (derived views of the source)
--

/-- Validator view of processUpdate: the text the update would push, or
none when it is rejected (no message, wrong chat, or no text). -/
def validText (chat_id : Int) (u : Update) : Option String :=
  match u.message with
  | none => none
  | some m => if m.chat.id ≠ chat_id then none else m.text

/-- Single event a processed update contributes: the error event of its
rejection, or the data event of its text. -/
def updateEvent (chat_id : Int) (u : Update) : Event :=
  match u.message with
  | none => Event.error "Inline queries are not supported" (ErrPayload.upd u)
  | some m =>
    if m.chat.id ≠ chat_id then
      Event.error "Received message for not-listening chat" (ErrPayload.msg m)
    else
      match m.text with
      | none => Event.error "Only text messages are supported" (ErrPayload.msg m)
      | some t => Event.data t

/-- Offset tracker step: how processUpdate advances _updatesOffset. -/
def offsetStep (o : Int) (u : Update) : Int :=
  if u.update_id ≥ o then u.update_id + 1 else o

/-- Offset tracker over a whole batch, in array order. -/
def offsetAfter (o : Int) (l : List Update) : Int :=
  l.foldl offsetStep o

/-- Number of pushes an update performs: one when valid, none when
rejected. -/
def pushDelta (chat_id : Int) (u : Update) : Nat :=
  if (validText chat_id u).isSome then 1 else 0

/-- Number of pushes a whole batch performs. -/
def pushTotal (chat_id : Int) : List Update → Nat
  | [] => 0
  | u :: us => pushDelta chat_id u + pushTotal chat_id us

/-- Continue flag of a batch starting at push index k: true exactly when
every update is valid and each push returned true. -/
def batchFlag (chat_id : Int) (pushOk : Nat → Bool) (k : Nat) : List Update → Bool
  | [] => true
  | u :: us =>
    match validText chat_id u with
    | none => false
    | some _ => pushOk k && batchFlag chat_id pushOk (k + 1) us

/-- Whether an event is a data event. -/
def isDataEvent : Event → Bool
  | Event.data _ => true
  | _ => false

/-- Largest update_id of a batch (0 when the batch is empty). -/
def maxUpdateId (l : List Update) : Int :=
  l.foldl (fun a u => max a u.update_id) 0

/-- Whether construction succeeded (no value was thrown). -/
def constructSucceeds : Except ConstructError LogState → Bool
  | Except.ok _ => true
  | Except.error _ => false

/-- Flat validity predicate matching the conditions the constructor
actually checks: token present and nonempty, chat_id present and nonzero,
and, when the webhook option is truthy and not a string, its effective
port is one of the allowed ports. -/
def codeConfigValid (token : Option String) (chat_id : Option Int)
    (webhook : Option WebhookOpt) : Bool :=
  (match token with | none => false | some t => t != "")
  && (match chat_id with | none => false | some c => c != 0)
  && (match webhook with
      | none => true
      | some w =>
        !w.truthy ||
          (match w with
           | WebhookOpt.host _ => true
           | _ => portAllowed (effectivePort w)))

--
-- Concrete instances used in counterexamples and witnesses
--

/-- Backpressure oracle of a consumer that never signals backpressure. -/
def alwaysOk : Nat → Bool := fun _ => true

/-- Backpressure oracle of a consumer that always signals backpressure. -/
def neverOk : Nat → Bool := fun _ => false

/-- First update of the duplicated batch of the spec scenario. -/
def hiUpdate : Update :=
  { update_id := 1, message := some { chat := { id := 42 }, text := some "hi" } }

/-- Second update of the duplicated batch: same update_id, other text. -/
def dupUpdate : Update :=
  { update_id := 1, message := some { chat := { id := 42 }, text := some "dup" } }

/-- Polling batch of the spec scenario: two updates with update_id 1. -/
def dupBatch : List Update := [hiUpdate, dupUpdate]

/-- Update without a message field (an inline query). -/
def noMsgUpdate : Update := { update_id := 3, message := none }

/-- State whose offset is already past the stale example update. -/
def staleState : LogState := { initState WebhookVar.active with offset := 5 }

/-- Stale update: its update_id 3 is below the offset 5 of staleState. -/
def staleUpdate : Update :=
  { update_id := 3, message := some { chat := { id := 42 }, text := some "old" } }

/-- Polling-mode state with a fetch in flight. -/
def pendingPollState : LogState :=
  { initState WebhookVar.undef with inFlight := true, polling := PollingVar.pending }

--
-- Helper lemmas
--

/-- Characterization of one processUpdate call: the offset advances by
offsetStep, exactly one event (updateEvent) is appended, the push count
grows by pushDelta, and the returned JS value is the push boolean when
the update is valid and undefined otherwise. -/
lemma processUpdate_eq (c : Int) (ok : Nat → Bool) (st : LogState) (u : Update) :
    processUpdate c ok st u =
      ({ st with offset := offsetStep st.offset u,
                 events := st.events ++ [updateEvent c u],
                 pushedCount := st.pushedCount + pushDelta c u },
       if (validText c u).isSome then some (ok st.pushedCount) else none) := by
  cases hm : u.message with
  | none =>
    simp [processUpdate, offsetStep, updateEvent, validText, pushDelta,
          pushData, emitError, hm]
    split <;> simp
  | some m =>
    by_cases hc : m.chat.id = c
    · cases ht : m.text with
      | none =>
        simp [processUpdate, offsetStep, updateEvent, validText, pushDelta,
              pushData, emitError, hm, hc, ht]
        split <;> simp
      | some t =>
        simp [processUpdate, offsetStep, updateEvent, validText, pushDelta,
              pushData, emitError, hm, hc, ht]
        split <;> simp
    · simp [processUpdate, offsetStep, updateEvent, validText, pushDelta,
            pushData, emitError, hm, hc]
      split <;> simp

/-- Characterization of the reduce of gotUpdates over a whole batch:
every update contributes its offset step, its single event in array
order and its push count, and the flag is the conjunction of the initial
accumulator with the AND-reduction of the batch's push results. -/
lemma foldl_reduce_eq (c : Int) (ok : Nat → Bool) (l : List Update) :
    ∀ (st : LogState) (b : Bool),
      l.foldl (processUpdate_reduce c ok) (st, b) =
        ({ st with offset := offsetAfter st.offset l,
                   events := st.events ++ l.map (updateEvent c),
                   pushedCount := st.pushedCount + pushTotal c l },
         b && batchFlag c ok st.pushedCount l) := by
  induction l with
  | nil => intro st b; simp [offsetAfter, pushTotal, batchFlag]
  | cons u us ih =>
    intro st b
    rw [List.foldl_cons]
    have hstep : processUpdate_reduce c ok (st, b) u =
        ({ st with offset := offsetStep st.offset u,
                   events := st.events ++ [updateEvent c u],
                   pushedCount := st.pushedCount + pushDelta c u },
         (if (validText c u).isSome then ok st.pushedCount else false) && b) := by
      simp only [processUpdate_reduce, processUpdate_eq]
      cases h : (validText c u).isSome <;> simp [h, optTruthy]
    rw [hstep, ih]
    cases hv : validText c u with
    | none =>
      simp [offsetAfter, pushTotal, pushDelta, batchFlag, hv,
            List.append_assoc, Nat.add_assoc]
    | some t =>
      simp [offsetAfter, pushTotal, pushDelta, batchFlag, hv,
            List.append_assoc, Nat.add_assoc, Bool.and_assoc, Bool.and_comm,
            Bool.and_left_comm]

/-- Characterization of gotUpdates: inFlight cleared, the batch folded
in array order, and the 1000 ms re-fetch scheduled exactly when the
AND-reduced flag is true. -/
lemma gotUpdates_eq (c : Int) (ok : Nat → Bool) (st : LogState) (l : List Update) :
    gotUpdates c ok st l =
      ({ st with inFlight := false, polling := settlePolling st.polling,
                 offset := offsetAfter st.offset l,
                 events := st.events ++ l.map (updateEvent c),
                 pushedCount := st.pushedCount + pushTotal c l },
       if batchFlag c ok st.pushedCount l then some 1000 else none) := by
  simp only [gotUpdates]
  rw [foldl_reduce_eq]
  simp

/-- One rejected update anywhere in the batch forces the AND-reduced
continue flag to false, whatever the push index. -/
lemma batchFlag_false_of_invalid (c : Int) (ok : Nat → Bool) {u : Update}
    {l : List Update} (hu : u ∈ l) (hv : validText c u = none) :
    ∀ k, batchFlag c ok k l = false := by
  induction l with
  | nil => cases hu
  | cons v vs ih =>
    intro k
    rcases List.mem_cons.mp hu with h | h
    · subst h; simp [batchFlag, hv]
    · cases hvv : validText c v with
      | none => simp [batchFlag, hvv]
      | some t => simp [batchFlag, hvv, ih h]

/-- The AND-reduced continue flag is true exactly when every update of
the batch is valid and every push, at its consecutive index, returned
true. -/
lemma batchFlag_iff (c : Int) (ok : Nat → Bool) :
    ∀ (l : List Update) (k : Nat),
      batchFlag c ok k l = true ↔
        ((∀ u ∈ l, (validText c u).isSome = true) ∧
          ∀ i < l.length, ok (k + i) = true) := by
  intro l
  induction l with
  | nil => intro k; simp [batchFlag]
  | cons u us ih =>
    intro k
    cases hv : validText c u with
    | none =>
      simp only [batchFlag, hv, Bool.false_eq_true, false_iff]
      intro h
      have := h.1 u (List.mem_cons_self u us)
      rw [hv] at this
      simp at this
    | some t =>
      simp only [batchFlag, hv, Bool.and_eq_true, ih]
      constructor
      · rintro ⟨hok, hall, hidx⟩
        refine ⟨?_, ?_⟩
        · intro v hvm
          rcases List.mem_cons.mp hvm with h | h
          · subst h; simp [hv]
          · exact hall v h
        · intro i hi
          cases i with
          | zero => simpa using hok
          | succ j =>
            have hj : j < us.length := by
              simpa [Nat.succ_lt_succ_iff] using hi
            have := hidx j hj
            have harith : k + 1 + j = k + (j + 1) := by omega
            rw [harith] at this
            exact this
      · rintro ⟨hall, hidx⟩
        refine ⟨?_, ?_, ?_⟩
        · simpa using hidx 0 (by simp)
        · intro v h; exact hall v (List.mem_cons_of_mem _ h)
        · intro j hj
          have := hidx (j + 1) (by simpa [Nat.succ_lt_succ_iff] using hj)
          have harith : k + (j + 1) = k + 1 + j := by omega
          rw [harith] at this
          exact this

/-- The offset step of processUpdate is the maximum of the current offset
and update_id plus one. -/
lemma offsetStep_eq_max (o : Int) (u : Update) :
    offsetStep o u = max o (u.update_id + 1) := by
  unfold offsetStep
  split
  · exact (max_eq_right (by omega)).symm
  · exact (max_eq_left (by omega)).symm

/-- The offset tracker over a batch is a fold of max over update_id plus
one. -/
lemma offsetAfter_max (l : List Update) : ∀ o : Int,
    offsetAfter o l = l.foldl (fun a u => max a (u.update_id + 1)) o := by
  induction l with
  | nil => intro o; rfl
  | cons u us ih =>
    intro o
    have h1 : offsetAfter o (u :: us) = offsetAfter (offsetStep o u) us := by
      simp [offsetAfter]
    rw [h1, ih, offsetStep_eq_max]
    simp [List.foldl_cons]

/-- Shifting the accumulator of the max fold by one distributes over the
whole fold. -/
lemma foldmax_shift (l : List Update) : ∀ o : Int,
    l.foldl (fun a u => max a (u.update_id + 1)) (o + 1) =
      l.foldl (fun a u => max a u.update_id) o + 1 := by
  induction l with
  | nil => intro o; rfl
  | cons u us ih =>
    intro o
    simp only [List.foldl_cons]
    have h : max (o + 1) (u.update_id + 1) = max o u.update_id + 1 := by
      rcases le_total o u.update_id with h | h
      · rw [max_eq_right h, max_eq_right (by omega)]
      · rw [max_eq_left h, max_eq_left (by omega)]
    rw [h, ih]

/-- The max fold over a nonempty batch of nonnegative update_ids does not
depend on starting at -1 or at 0. -/
lemma foldmax_init_nonneg (l : List Update) (hne : l ≠ [])
    (hpos : ∀ u ∈ l, 0 ≤ u.update_id) :
    l.foldl (fun a u => max a u.update_id) (-1) =
      l.foldl (fun a u => max a u.update_id) 0 := by
  cases l with
  | nil => exact absurd rfl hne
  | cons u us =>
    simp only [List.foldl_cons]
    have h0 : 0 ≤ u.update_id := hpos u (List.mem_cons_self u us)
    rw [max_eq_right (by omega : (-1 : Int) ≤ u.update_id), max_eq_right h0]

/-- Starting at offset 0, the offset tracker over a nonempty batch of
nonnegative update_ids ends at the largest update_id plus one. -/
lemma offsetAfter_zero_eq (l : List Update) (hne : l ≠ [])
    (hpos : ∀ u ∈ l, 0 ≤ u.update_id) :
    offsetAfter 0 l = maxUpdateId l + 1 := by
  rw [offsetAfter_max]
  have h : (0 : Int) = -1 + 1 := by norm_num
  rw [h, foldmax_shift, foldmax_init_nonneg l hne hpos]
  rfl

--
-- Claim theorems
--

/-- Claim C1, counterexample: the claim predicts that the polling batch
with two updates of update_id 1 on an instance with chat_id 42 yields
exactly one data event. On the code, gotUpdates runs processUpdate on
every update of a batch with no staleness check (only the webhook data
handler compares update_id with the offset), so the batch yields two
data events, hi and dup, refuting the claim at this concrete input; the
offset does end at 2. -/
theorem C1_counterexample :
    (gotUpdates 42 alwaysOk (initState WebhookVar.undef) dupBatch).1.events
        = [Event.data "hi", Event.data "dup"]
    ∧ (gotUpdates 42 alwaysOk (initState WebhookVar.undef) dupBatch).1.offset = 2
    ∧ ((gotUpdates 42 alwaysOk (initState WebhookVar.undef) dupBatch).1.events.filter
          isDataEvent).length ≠ 1 := by
  decide

/-- Claim C1 as amended: only the webhook transport suppresses stale
updates: a webhook delivery whose update_id is strictly below the
current offset produces no data and no error event and leaves the state
unchanged; in a polling batch stale updates still go through validation,
so the scenario batch with chat_id 42 yields the two data events hi and
dup and leaves the offset at 2. -/
theorem C1_amended (chat : Int) (ok : Nat → Bool) (st : LogState) (u : Update)
    (h : u.update_id < st.offset) :
    webhookData chat ok st u = st
    ∧ (gotUpdates 42 alwaysOk (initState WebhookVar.undef) dupBatch).1.events
        = [Event.data "hi", Event.data "dup"]
    ∧ (gotUpdates 42 alwaysOk (initState WebhookVar.undef) dupBatch).1.offset = 2 := by
  refine ⟨?_, by decide, by decide⟩
  have hn : ¬(u.update_id ≥ st.offset) := not_le.mpr h
  simp [webhookData, hn]

/-- Claim C1 witness: the amended theorem applied to a stale webhook
delivery (update_id 3 against offset 5). -/
theorem C1_amended_witness :
    webhookData 42 alwaysOk staleState staleUpdate = staleState
    ∧ (gotUpdates 42 alwaysOk (initState WebhookVar.undef) dupBatch).1.events
        = [Event.data "hi", Event.data "dup"]
    ∧ (gotUpdates 42 alwaysOk (initState WebhookVar.undef) dupBatch).1.offset = 2 :=
  C1_amended 42 alwaysOk staleState staleUpdate (by decide)

/-- Claim C2: the offset starts at 0; over any nonempty batch of updates
with nonnegative update_id it ends at the largest update_id plus one;
each processUpdate call never decreases it; and its value does not
depend on the configured chat_id or on the push results, that is, it
advances regardless of validation outcome. -/
theorem C2_offset_tracking (chat chat2 : Int) (ok ok2 : Nat → Bool)
    (l : List Update) (u : Update)
    (hne : l ≠ []) (hpos : ∀ v ∈ l, 0 ≤ v.update_id) :
    (initState WebhookVar.undef).offset = 0
    ∧ (gotUpdates chat ok (initState WebhookVar.undef) l).1.offset = maxUpdateId l + 1
    ∧ (∀ st : LogState, st.offset ≤ (processUpdate chat ok st u).1.offset)
    ∧ (∀ st : LogState,
        (processUpdate chat ok st u).1.offset = (processUpdate chat2 ok2 st u).1.offset) := by
  refine ⟨rfl, ?_, ?_, ?_⟩
  · rw [gotUpdates_eq]
    have h0 : (initState WebhookVar.undef).offset = 0 := rfl
    simp only [h0]
    exact offsetAfter_zero_eq l hne hpos
  · intro st
    rw [processUpdate_eq]
    simp only [offsetStep_eq_max]
    exact le_max_left _ _
  · intro st
    rw [processUpdate_eq, processUpdate_eq]

/-- Claim C2 witness: the offset theorem applied to the concrete
duplicated batch and the concrete update hiUpdate, with two different
chat ids and two different backpressure oracles. -/
theorem C2_witness :
    (initState WebhookVar.undef).offset = 0
    ∧ (gotUpdates 42 alwaysOk (initState WebhookVar.undef) dupBatch).1.offset
        = maxUpdateId dupBatch + 1
    ∧ (∀ st : LogState, st.offset ≤ (processUpdate 42 alwaysOk st hiUpdate).1.offset)
    ∧ (∀ st : LogState,
        (processUpdate 42 alwaysOk st hiUpdate).1.offset
          = (processUpdate 7 neverOk st hiUpdate).1.offset) :=
  C2_offset_tracking 42 7 alwaysOk neverOk dupBatch hiUpdate (by decide) (by decide)

/-- Claim C3: on an update with no message field, processUpdate emits
exactly one error event with the inline-query message carrying the
update, pushes nothing and returns undefined; on a message from another
chat, exactly one error with the wrong-chat message carrying the
message; on a message without text, exactly one error with the
non-text message carrying the message; otherwise exactly one data event
equal to the text, no error, and the push boolean is returned. In every
reject case the function returns normally, so processing continues. -/
theorem C3_validator (chat : Int) (ok : Nat → Bool) (st : LogState) (u : Update) :
    (u.message = none →
      processUpdate chat ok st u =
        ({ st with offset := offsetStep st.offset u,
                   events := st.events ++
                     [Event.error "Inline queries are not supported" (ErrPayload.upd u)] },
         none))
    ∧ (∀ m, u.message = some m → m.chat.id ≠ chat →
        processUpdate chat ok st u =
          ({ st with offset := offsetStep st.offset u,
                     events := st.events ++
                       [Event.error "Received message for not-listening chat"
                          (ErrPayload.msg m)] },
           none))
    ∧ (∀ m, u.message = some m → m.chat.id = chat → m.text = none →
        processUpdate chat ok st u =
          ({ st with offset := offsetStep st.offset u,
                     events := st.events ++
                       [Event.error "Only text messages are supported" (ErrPayload.msg m)] },
           none))
    ∧ (∀ m t, u.message = some m → m.chat.id = chat → m.text = some t →
        processUpdate chat ok st u =
          ({ st with offset := offsetStep st.offset u,
                     events := st.events ++ [Event.data t],
                     pushedCount := st.pushedCount + 1 },
           some (ok st.pushedCount))) := by
  refine ⟨?_, ?_, ?_, ?_⟩
  · intro hm
    rw [processUpdate_eq]
    simp [updateEvent, validText, pushDelta, hm]
  · intro m hm hc
    rw [processUpdate_eq]
    simp [updateEvent, validText, pushDelta, hm, hc]
  · intro m hm hc ht
    rw [processUpdate_eq]
    simp [updateEvent, validText, pushDelta, hm, hc, ht]
  · intro m t hm hc ht
    rw [processUpdate_eq]
    simp [updateEvent, validText, pushDelta, hm, hc, ht]

/-- Claim C4: _read is a no-op when a fetch is in flight, when the
readable side ended, when the free capacity highWaterMark minus length
is zero, when the instance was stopped (polling set to null by close)
or when the webhook variable is not undefined (Webhook mode); otherwise
it sets inFlight and issues exactly one getUpdates call with the
current offset, the free capacity as limit, and timeout 0. -/
theorem C4_read (hwm len : Nat) (st : LogState) :
    (st.inFlight = true → _read hwm len st = (st, none))
    ∧ (st.ended = true → _read hwm len st = (st, none))
    ∧ ((hwm : Int) - (len : Int) = 0 → _read hwm len st = (st, none))
    ∧ (st.polling = PollingVar.closed → _read hwm len st = (st, none))
    ∧ (st.webhook ≠ WebhookVar.undef → _read hwm len st = (st, none))
    ∧ (st.inFlight = false → st.ended = false → (hwm : Int) - (len : Int) ≠ 0 →
        st.polling ≠ PollingVar.closed → st.webhook = WebhookVar.undef →
        _read hwm len st =
          ({ st with inFlight := true, polling := PollingVar.pending },
           some { offset := st.offset, limit := (hwm : Int) - (len : Int), timeout := 0 })) := by
  refine ⟨?_, ?_, ?_, ?_, ?_, ?_⟩
  · intro h; simp [_read, h]
  · intro h; simp [_read, h]
  · intro h; simp [_read, h]
  · intro h; simp [_read, h]
  · intro h; simp [_read, h]
  · intro h1 h2 h3 h4 h5
    simp [_read, h1, h2, h3, h4, h5]

/-- Claim C5: gotUpdates processes every update of the batch exactly
once and in array order, each contributing its single event and its
offset step even after an earlier push signaled backpressure, and the
1000 ms re-fetch timer is scheduled exactly when the AND-reduction of
the batch is true, that is, when every update was valid and every push
returned true. -/
theorem C5_batch (chat : Int) (ok : Nat → Bool) (st : LogState) (l : List Update) :
    (gotUpdates chat ok st l).1.events = st.events ++ l.map (updateEvent chat)
    ∧ (gotUpdates chat ok st l).1.offset = offsetAfter st.offset l
    ∧ ((gotUpdates chat ok st l).2 = some 1000 ↔
        batchFlag chat ok st.pushedCount l = true)
    ∧ ((gotUpdates chat ok st l).2 = some 1000 ↔
        ((∀ u ∈ l, (validText chat u).isSome = true) ∧
          ∀ i < l.length, ok (st.pushedCount + i) = true))
    ∧ ((gotUpdates chat ok st l).2 = some 1000 ∨ (gotUpdates chat ok st l).2 = none) := by
  rw [gotUpdates_eq]
  refine ⟨rfl, rfl, ?_, ?_, ?_⟩
  · by_cases hb : batchFlag chat ok st.pushedCount l = true <;> simp [hb]
  · rw [← batchFlag_iff]
    by_cases hb : batchFlag chat ok st.pushedCount l = true <;> simp [hb]
  · by_cases hb : batchFlag chat ok st.pushedCount l = true <;> simp [hb]

/-- Claim C6, counterexample: on a freshly constructed polling instance
no fetch is in flight, yet close does nothing at all: the polling
variable is still undefined, so the if polling branch is skipped and
end-of-data is never signaled, refuting the claim that close signals
end-of-data immediately whenever no fetch is in flight. -/
theorem C6_counterexample :
    (initState WebhookVar.undef).webhook = WebhookVar.undef
    ∧ (initState WebhookVar.undef).inFlight = false
    ∧ close (initState WebhookVar.undef) = (initState WebhookVar.undef, CloseAction.noop)
    ∧ signalsEnd (close (initState WebhookVar.undef)).2 = false := by
  decide

/-- Claim C6 as amended: in Polling mode close attaches end-of-data to
the polling promise, so with a fetch in flight end is signaled only
after it settles, and with a previously settled fetch end is signaled
immediately; but when no fetch was ever started, close does nothing and
end-of-data is never signaled, and on an already closed instance close
is a no-op. -/
theorem C6_amended (st : LogState) (hw : st.webhook = WebhookVar.undef) :
    (st.polling = PollingVar.pending →
      close st = ({ st with polling := PollingVar.closed },
                  CloseAction.endAfterPolling false))
    ∧ (st.polling = PollingVar.settled →
      close st = ({ st with polling := PollingVar.closed },
                  CloseAction.endAfterPolling true))
    ∧ (st.polling = PollingVar.notStarted → close st = (st, CloseAction.noop))
    ∧ (st.polling = PollingVar.closed → close st = (st, CloseAction.noop)) := by
  refine ⟨?_, ?_, ?_, ?_⟩ <;> intro hp <;> simp [close, hw, hp]

/-- Claim C6 witness: the amended close behavior on a polling instance
with a fetch in flight. -/
theorem C6_amended_witness :
    (pendingPollState.polling = PollingVar.pending →
      close pendingPollState = ({ pendingPollState with polling := PollingVar.closed },
                                CloseAction.endAfterPolling false))
    ∧ (pendingPollState.polling = PollingVar.settled →
      close pendingPollState = ({ pendingPollState with polling := PollingVar.closed },
                                CloseAction.endAfterPolling true))
    ∧ (pendingPollState.polling = PollingVar.notStarted →
        close pendingPollState = (pendingPollState, CloseAction.noop))
    ∧ (pendingPollState.polling = PollingVar.closed →
        close pendingPollState = (pendingPollState, CloseAction.noop)) :=
  C6_amended pendingPollState (by decide)

/-- Claim C7, counterexample: in Webhook mode a first close issues the
unregistration call but leaves the webhook variable set (closeWebhook
only clears it when that call settles), so a second close issued before
the settlement passes the if webhook test again and issues a second
setWebhook unregistration, refuting at-most-once unregistration. -/
theorem C7_counterexample :
    (close (initState WebhookVar.active)).2 = CloseAction.unsetWebhook
    ∧ (close (close (initState WebhookVar.active)).1).2 = CloseAction.unsetWebhook := by
  decide

/-- Claim C7 as amended: close on a fully closed instance is a no-op:
once closeWebhook has run (the unregistration of an earlier close
settled and the webhook variable is null) any further close returns
immediately with no second setWebhook call, and in polling mode close
after close is a no-op; but while the webhook variable is still set,
every close call issues an unregistration, so a second close before the
first settlement duplicates it. -/
theorem C7_amended (st : LogState) :
    (st.webhook = WebhookVar.nullv → close st = (st, CloseAction.noop))
    ∧ close (closeWebhook st) = (closeWebhook st, CloseAction.noop)
    ∧ (st.webhook = WebhookVar.active →
        (close st).1 = st ∧ (close st).2 = CloseAction.unsetWebhook)
    ∧ (st.webhook = WebhookVar.undef → st.polling = PollingVar.closed →
        close st = (st, CloseAction.noop)) := by
  refine ⟨?_, ?_, ?_, ?_⟩
  · intro h; simp [close, h]
  · simp [close, closeWebhook]
  · intro h; simp [close, h]
  · intro h1 h2; simp [close, h1, h2]

/-- Claim C8, counterexample: a webhook option that is the number 0 is a
numeric port outside the allowed set, yet construction succeeds: the
option is falsy, so the if webhook block with the port check is skipped
entirely, refuting the claim that construction fails exactly on the
listed invalid configurations. -/
theorem C8_counterexample :
    construct (some "token") (some 42) (some (WebhookOpt.port 0)) =
      Except.ok (initState WebhookVar.falsy)
    ∧ ¬((0 : Int) = 80 ∨ (0 : Int) = 88 ∨ (0 : Int) = 443 ∨ (0 : Int) = 8443) :=
  ⟨rfl, by decide⟩

/-- Claim C8 as amended: construction fails synchronously, before any
network activity, exactly when the token is missing or empty, the
chat_id is missing or zero, or the webhook option is truthy, not a
string, and its effective port is not one of 80, 88, 443, 8443; in
particular Webhook mode with port 8080 fails with a RangeError carrying
the port. A falsy webhook option, such as the number 0, skips the port
check and construction succeeds. Such errors are thrown from straight
statements with no retry path. -/
theorem C8_amended (token : Option String) (chat_id : Option Int)
    (webhook : Option WebhookOpt) :
    (constructSucceeds (construct token chat_id webhook) = true ↔
      codeConfigValid token chat_id webhook = true)
    ∧ construct (some "token") (some 42) (some (WebhookOpt.port 8080)) =
        Except.error (ConstructError.badPort (PortVal.num 8080)) := by
  refine ⟨?_, rfl⟩
  cases token with
  | none => simp [construct, constructSucceeds, codeConfigValid]
  | some tok =>
    by_cases ht : tok = ""
    · simp [construct, constructSucceeds, codeConfigValid, ht]
    · cases chat_id with
      | none => simp [construct, constructSucceeds, codeConfigValid, ht]
      | some c =>
        by_cases hc : c = 0
        · simp [construct, constructSucceeds, codeConfigValid, ht, hc]
        · cases webhook with
          | none => simp [construct, constructSucceeds, codeConfigValid, ht, hc]
          | some w =>
            by_cases htr : w.truthy = true
            · cases w with
              | host s => simp [construct, constructSucceeds, codeConfigValid, ht, hc, htr]
              | port p =>
                by_cases hp : portAllowed (effectivePort (WebhookOpt.port p)) = true <;>
                  simp [construct, constructSucceeds, codeConfigValid, ht, hc, htr, hp]
              | obj h po cert =>
                by_cases hp : portAllowed (effectivePort (WebhookOpt.obj h po cert)) = true <;>
                  simp [construct, constructSucceeds, codeConfigValid, ht, hc, htr, hp]
            · simp [construct, constructSucceeds, codeConfigValid, ht, hc, htr]

/-- Claim C9, counterexample: the number 0 is neither null nor the empty
string, yet writing it completes immediately with no sendMessage call,
because the source compares chunk with the empty string using JS loose
equality and 0 compares equal to the empty string, refuting the claim
that every payload other than null or the empty string is sent. -/
theorem C9_counterexample :
    _write jsonStr 42 (Chunk.num 0) = WriteAction.immediateDone
    ∧ Chunk.num 0 ≠ Chunk.nullv
    ∧ Chunk.num 0 ≠ Chunk.str "" := by
  decide

/-- Claim C9 as amended: a write completes immediately with no API call
exactly when the payload is null or undefined or compares loosely equal
to the empty string under JS equality (the empty string itself, or the
number 0); any other payload issues exactly one sendMessage call with
the configured chat_id and the serialized payload, the write completing
with that call's success or failure when it settles. In particular the
empty string and null complete immediately. -/
theorem C9_amended (stringify : Chunk → String) (chat_id : Int) (chunk : Chunk) :
    ((chunkEqNull chunk || chunkEqEmptyString chunk) = true →
      _write stringify chat_id chunk = WriteAction.immediateDone)
    ∧ ((chunkEqNull chunk || chunkEqEmptyString chunk) = false →
      _write stringify chat_id chunk = WriteAction.sendMessage chat_id (stringify chunk))
    ∧ _write stringify chat_id (Chunk.str "") = WriteAction.immediateDone
    ∧ _write stringify chat_id Chunk.nullv = WriteAction.immediateDone := by
  refine ⟨?_, ?_, ?_, ?_⟩
  · intro h; simp [_write, h]
  · intro h; simp [_write, h]
  · simp [_write, chunkEqNull, chunkEqEmptyString]
  · simp [_write, chunkEqNull, chunkEqEmptyString]

/-- Claim C10: a batch containing at least one update rejected by
validation never schedules the 1000 ms re-fetch, whatever the other
updates did: the error path of processUpdate returns undefined, which
forces the AND-reduced continue flag to falsy. -/
theorem C10_reject_blocks_refetch (chat : Int) (ok : Nat → Bool) (st : LogState)
    (l : List Update) (u : Update) (hu : u ∈ l) (hv : validText chat u = none) :
    (gotUpdates chat ok st l).2 = none := by
  rw [gotUpdates_eq]
  have hb := batchFlag_false_of_invalid chat ok hu hv st.pushedCount
  simp [hb]

/-- Claim C10 witness: a batch whose second update has no message field
schedules no re-fetch although its first update was pushed without
backpressure. -/
theorem C10_witness :
    (gotUpdates 42 alwaysOk (initState WebhookVar.undef) [hiUpdate, noMsgUpdate]).2 = none :=
  C10_reject_blocks_refetch 42 alwaysOk (initState WebhookVar.undef)
    [hiUpdate, noMsgUpdate] noMsgUpdate (by decide) (by decide)

end TelegramLog
